import Mathlib

/-! Shallow embedding of the playback-process orchestration subsystem of
`player.py` (MPV_PLAYER repository): the mpv process manager and its IPC
control channel, the escalating shutdown sequence, the overlay banners,
the REST route handlers, and the interrupt-ad flow.  Durations are
measured in tenths of a second unless a name says milliseconds. -/

namespace MpvPlayer

/-- Python values that appear as elements of an IPC command list.  The
program only ever places strings, ints and booleans there
(`player.py`, `_send_ipc_command` callers). -/
inductive JVal where
  | jstr (s : String)
  | jint (n : Int)
  | jbool (b : Bool)
deriving DecidableEq

/-- How `json.dumps` renders one such value. -/
def JVal.dumps : JVal → String
  | JVal.jstr s => "\"" ++ s ++ "\""
  | JVal.jint n => toString n
  | JVal.jbool b => if b then "true" else "false"

/-- Comma-space separated rendering of the elements of a JSON array, as
`json.dumps` produces with its default separators. -/
def dumpsElems : List JVal → String
  | [] => ""
  | [v] => v.dumps
  | v :: rest => v.dumps ++ ", " ++ dumpsElems rest

/-- The byte payload `_send_ipc_command` writes for a command list:
`json.dumps(\x7b"command": command\x7d) + "\n"` (`player.py` line 80). -/
def ipcPayload (command : List JVal) : String :=
  "\x7b\"command\": [" ++ dumpsElems command ++ "]\x7d\n"

/-- Failure classes of the socket system calls made by
`_send_ipc_command`; each surfaces in Python as a raised exception. -/
inductive SockErr where
  | timeout
  | refused
  | broken
deriving DecidableEq

/-- Environment of one `_send_ipc_command` call: whether the socket file
exists, and how the `connect` and `sendall` system calls behave
(`none` = the call succeeds).  The `Tenths` fields say how long the call
takes when it does not hit the configured socket timeout. -/
structure IpcEnv where
  socketExists : Bool
  connectResult : Option SockErr
  connectTenths : Nat
  sendResult : Option SockErr
  sendTenths : Nat

/-- Observable socket actions of one `_send_ipc_command` call. -/
inductive IpcAction where
  | connect
  | write (payload : String)
deriving DecidableEq

/-- Result of one `_send_ipc_command` call: the returned boolean, the
socket actions performed, and the time spent blocked. -/
structure IpcResult where
  success : Bool
  trace : List IpcAction
  elapsedTenths : Nat
deriving DecidableEq

/-- Time spent in `s.connect`: `s.settimeout(timeout_s)` caps every
blocking socket call at the timeout, and a timeout failure consumes
exactly the timeout. -/
def connectElapsed (env : IpcEnv) (timeoutTenths : Nat) : Nat :=
  match env.connectResult with
  | some SockErr.timeout => timeoutTenths
  | _ => min env.connectTenths timeoutTenths

/-- Time spent in `s.sendall`, capped the same way by the socket timeout. -/
def sendallElapsed (env : IpcEnv) (timeoutTenths : Nat) : Nat :=
  match env.sendResult with
  | some SockErr.timeout => timeoutTenths
  | _ => min env.sendTenths timeoutTenths

/-- Body of the `with socket.socket(...) as s: ...` block in
`_send_ipc_command` (`player.py` lines 77-82): connect, then write the
serialized command.  An `.error` value is a raised socket exception. -/
def sendIpcBody (env : IpcEnv) (command : List JVal) (timeoutTenths : Nat) :
    Except SockErr Bool × List IpcAction × Nat :=
  match env.connectResult with
  | some e => (Except.error e, [IpcAction.connect], connectElapsed env timeoutTenths)
  | none =>
    match env.sendResult with
    | some e =>
      (Except.error e,
       [IpcAction.connect, IpcAction.write (ipcPayload command)],
       connectElapsed env timeoutTenths + sendallElapsed env timeoutTenths)
    | none =>
      (Except.ok true,
       [IpcAction.connect, IpcAction.write (ipcPayload command)],
       connectElapsed env timeoutTenths + sendallElapsed env timeoutTenths)

/-- `MpvProcessManager._send_ipc_command` (`player.py` lines 72-84):
returns `False` immediately when the socket path does not exist,
otherwise runs the socket body under `try/except Exception: return
False`, so every raised socket error becomes a `False` return. -/
def send_ipc_command (env : IpcEnv) (command : List JVal) (timeoutTenths : Nat) : IpcResult :=
  if env.socketExists then
    match sendIpcBody env command timeoutTenths with
    | (Except.ok b, tr, t) => { success := b, trace := tr, elapsedTenths := t }
    | (Except.error _, tr, t) => { success := false, trace := tr, elapsedTenths := t }
  else { success := false, trace := [], elapsedTenths := 0 }

/-- `MpvProcessManager.play_pause`: toggle play/pause. -/
def play_pause (env : IpcEnv) : IpcResult :=
  send_ipc_command env [JVal.jstr "cycle", JVal.jstr "pause"] 15

/-- `MpvProcessManager.next_video`. -/
def next_video (env : IpcEnv) : IpcResult :=
  send_ipc_command env [JVal.jstr "playlist_next"] 15

/-- `MpvProcessManager.previous_video`. -/
def previous_video (env : IpcEnv) : IpcResult :=
  send_ipc_command env [JVal.jstr "playlist_prev"] 15

/-- `MpvProcessManager.seek_forward`. -/
def seek_forward (env : IpcEnv) (seconds : Int) : IpcResult :=
  send_ipc_command env [JVal.jstr "seek", JVal.jint seconds] 15

/-- `MpvProcessManager.seek_backward`. -/
def seek_backward (env : IpcEnv) (seconds : Int) : IpcResult :=
  send_ipc_command env [JVal.jstr "seek", JVal.jint (-seconds)] 15

/-- `MpvProcessManager.set_volume`.  The argument is annotated `int` in
the source but Python does not enforce the annotation, so the model
takes any command-list value. -/
def set_volume (env : IpcEnv) (volume : JVal) : IpcResult :=
  send_ipc_command env [JVal.jstr "set", JVal.jstr "volume", volume] 15

/-- `MpvProcessManager.pause`. -/
def pause (env : IpcEnv) : IpcResult :=
  send_ipc_command env [JVal.jstr "set", JVal.jstr "pause", JVal.jbool true] 15

/-- `MpvProcessManager.resume`. -/
def resume (env : IpcEnv) : IpcResult :=
  send_ipc_command env [JVal.jstr "set", JVal.jstr "pause", JVal.jbool false] 15

/-- `MpvProcessManager._send_ipc_quit`. -/
def send_ipc_quit (env : IpcEnv) (timeoutTenths : Nat) : IpcResult :=
  send_ipc_command env [JVal.jstr "quit"] timeoutTenths

/-- Observable events of one `MpvProcessManager.stop` call, in the order
they happen.  `sendQuit` and `waitTwo` carry the time they blocked; a
`sleepTenth` blocks one tenth of a second. -/
inductive StopEvent where
  | sendQuit (success : Bool) (elapsedTenths : Nat)
  | pollEv (exited : Bool)
  | sleepTenth
  | terminateEv
  | waitTwo (exited : Bool) (elapsedTenths : Nat)
  | killEv
  | clearHandle
  | removeSocket
deriving DecidableEq

/-- Behavior of the external mpv process during `stop`:
`exitedAtPoll i` is what the i-th `poll()` call of this `stop` observes
(`true` = an exit status is available), `waitExits` says whether
`wait(timeout=2)` sees the process exit within its 2-second window, and
`waitTenths` is how long that wait blocks when it does. -/
structure ProcBehavior where
  exitedAtPoll : Nat → Bool
  waitExits : Bool
  waitTenths : Nat

/-- State of the manager relevant to `stop`: the `_process` handle
(`none` mirrors Python `None`) and whether the control-socket file
exists on disk. -/
structure MgrState where
  process : Option Unit
  socketExists : Bool
deriving DecidableEq

/-- The `for _ in range(15): poll; if exited: break; sleep(0.1)` loop of
`stop` (`player.py` lines 128-132).  First argument: remaining
iterations; second: index of the next `poll()` call. -/
def quitPollLoop (b : ProcBehavior) : Nat → Nat → List StopEvent
  | 0, _ => []
  | n + 1, i =>
    if b.exitedAtPoll i then [StopEvent.pollEv true]
    else StopEvent.pollEv false :: StopEvent.sleepTenth :: quitPollLoop b n (i + 1)

/-- Number of `poll()` calls recorded in a stop-event list. -/
def countPolls (evs : List StopEvent) : Nat :=
  evs.countP fun e =>
    match e with
    | StopEvent.pollEv _ => true
    | _ => false

/-- The quit-grace stage of `stop`: the poll loop runs only when the
`quit` command was handed off (`if sent_quit:` in `player.py`). -/
def stopLoopEvents (b : ProcBehavior) (quitSent : Bool) : List StopEvent :=
  if quitSent then quitPollLoop b 15 0 else []

/-- The terminate/kill stage of `stop` (`player.py` lines 134-139):
poll once more; if still running, `terminate()`, then `wait(timeout=2)`,
and on `TimeoutExpired` (caught) `kill()`.  `idx` is the index of that
post-loop `poll()` call. -/
def stopAfterQuit (b : ProcBehavior) (idx : Nat) : List StopEvent :=
  if b.exitedAtPoll idx then [StopEvent.pollEv true]
  else
    StopEvent.pollEv false :: StopEvent.terminateEv ::
      (if b.waitExits then [StopEvent.waitTwo true (min b.waitTenths 20)]
       else [StopEvent.waitTwo false 20, StopEvent.killEv])

/-- Full event list of a `stop` call on an active process, given the
result of the initial `_send_ipc_quit`.  The trailing `clearHandle` and
`removeSocket` events come from the `finally:` block and so appear on
every path. -/
def stopEvents (b : ProcBehavior) (q : IpcResult) : List StopEvent :=
  let loopEvs := stopLoopEvents b q.success
  StopEvent.sendQuit q.success q.elapsedTenths ::
    loopEvs ++ stopAfterQuit b (countPolls loopEvs) ++
      [StopEvent.clearHandle, StopEvent.removeSocket]

/-- `MpvProcessManager.stop` (`player.py` lines 119-143).  Returns
immediately when `_process is None`.  Otherwise runs the escalation and,
in the `finally:` block, clears the handle and removes the socket file
(`_cleanup_ipc_socket` swallows its own errors); the model is a total
function because every exception the body can raise (`TimeoutExpired`
from `wait`, anything from `_cleanup_ipc_socket`) is caught. -/
def stop (st : MgrState) (ipc : IpcEnv) (b : ProcBehavior) : MgrState × List StopEvent :=
  match st.process with
  | none => (st, [])
  | some _ =>
    ({ process := none, socketExists := false },
     stopEvents b (send_ipc_command ipc [JVal.jstr "quit"] 15))

/-- Escalation stage of a stop event; `stop` must emit events with
non-decreasing stages. -/
def stopStage : StopEvent → Nat
  | StopEvent.sendQuit _ _ => 0
  | StopEvent.pollEv _ => 1
  | StopEvent.sleepTenth => 1
  | StopEvent.terminateEv => 2
  | StopEvent.waitTwo _ _ => 3
  | StopEvent.killEv => 4
  | StopEvent.clearHandle => 5
  | StopEvent.removeSocket => 6

/-- Number of `time.sleep(0.1)` calls in a stop-event list. -/
def sleepCount (evs : List StopEvent) : Nat :=
  evs.countP fun e =>
    match e with
    | StopEvent.sleepTenth => true
    | _ => false

/-- Total time blocked in `wait(timeout=2)` calls of a stop-event list. -/
def waitTime : List StopEvent → Nat
  | [] => 0
  | StopEvent.waitTwo _ t :: rest => t + waitTime rest
  | _ :: rest => waitTime rest

/-- Total time `stop` spends waiting after the quit command was handed
off: poll-loop sleeps plus the terminate grace wait. -/
def stopWaitTenths (evs : List StopEvent) : Nat :=
  sleepCount evs + waitTime evs

/-- A process that ignores both the `quit` command and the terminate
request: no poll ever sees an exit status and the 2-second wait times
out. -/
def stubbornProc : ProcBehavior :=
  { exitedAtPoll := fun _ => false, waitExits := false, waitTenths := 0 }

/-- State of one `OverlayBanner` widget (`player.py` lines 146-252):
visibility, the marquee flag and offset, whether the marquee timer is
running, the pending single-shot auto-hide timer (milliseconds until it
fires), and the current label text. -/
structure BannerState where
  visible : Bool
  marqueeEnabled : Bool
  marqueePos : Nat
  marqueeRunning : Bool
  autohideMs : Option Nat
  contentText : Option String
deriving DecidableEq

/-- A banner as `OverlayBanner.__init__` leaves it: hidden, marquee off,
no auto-hide armed. -/
def initBanner : BannerState :=
  { visible := false, marqueeEnabled := false, marqueePos := 0,
    marqueeRunning := false, autohideMs := none, contentText := none }

/-- `OverlayBanner._set_autohide` (`player.py` lines 249-252): always
stop the previous timer, then arm a new single-shot timer of
`duration_s * 1000` ms exactly when a positive duration is given. -/
def set_autohide (st : BannerState) (duration_s : Option Int) : BannerState :=
  let stopped := { st with autohideMs := none }
  match duration_s with
  | some d => if d > 0 then { stopped with autohideMs := some (d * 1000).toNat } else stopped
  | none => stopped

/-- `OverlayBanner.show_text` (`player.py` lines 199-210): set the text,
reset the marquee offset to 0, start or stop the marquee timer per
`scroll`, re-arm the auto-hide timer, and show the widget. -/
def show_text (st : BannerState) (text : String) (scroll : Bool)
    (duration_s : Option Int) : BannerState :=
  let st1 := { st with contentText := some text, marqueeEnabled := scroll, marqueePos := 0, marqueeRunning := scroll }
  let st2 := set_autohide st1 duration_s
  { st2 with visible := true }

/-- `OverlayBanner.show_image` (`player.py` lines 212-227): stop the
marquee timer, re-arm the auto-hide timer, and show the widget.  Pixmap
and movie handling leave the state modelled here unchanged. -/
def show_image (st : BannerState) (duration_s : Option Int) : BannerState :=
  let st1 := { st with marqueeRunning := false }
  let st2 := set_autohide st1 duration_s
  { st2 with visible := true }

/-- `QWidget.hide` on a banner (also the auto-hide timer's slot). -/
def hideBanner (st : BannerState) : BannerState :=
  { st with visible := false }

/-- The armed single-shot auto-hide timer after `ms` milliseconds pass:
when its deadline is reached it fires `self.hide` and disarms. -/
def elapseBanner (st : BannerState) (ms : Nat) : BannerState :=
  match st.autohideMs with
  | some d =>
    if d ≤ ms then { st with visible := false, autohideMs := none }
    else { st with autohideMs := some (d - ms) }
  | none => st

/-- `OverlayBanner._tick_marquee` (`player.py` lines 238-247): a no-op
unless the marquee is enabled; otherwise advance the offset by 2 and
wrap it modulo `max(1, horizontalAdvance(text) + 100)`.  `metricsAdvance`
is the font metric `horizontalAdvance` of the current label text, an
input from the rendering environment. -/
def tick_marquee (st : BannerState) (metricsAdvance : Nat) : BannerState :=
  if st.marqueeEnabled = false then st
  else { st with marqueePos := (st.marqueePos + 2) % max 1 (metricsAdvance + 100) }

/-- The two overlay slots of `PlayerWindow`. -/
structure Overlays where
  bottom : BannerState
  side : BannerState
deriving DecidableEq

/-- The payload fields of a `/show-overlay` request that
`PlayerWindow._on_show_overlay` reads (width/height only resize the
banner and are not modelled). -/
structure ShowPayload where
  position : String
  adType : String
  content : String
  duration : Option Int
  scroll : Bool

/-- `PlayerWindow._on_show_overlay` (`player.py` lines 485-510): pick
the bottom slot when `position == "bottom"`, else the side slot; for
`type == "text"` call `show_text` with the request duration as-is, for
any other type call `show_image` with the request duration defaulted to
10 when absent. -/
def on_show_overlay (w : Overlays) (p : ShowPayload) : Overlays :=
  let apply := fun (st : BannerState) =>
    if p.adType = "text" then show_text st p.content p.scroll p.duration
    else show_image st (match p.duration with | some d => some d | none => some 10)
  if p.position = "bottom" then { w with bottom := apply w.bottom }
  else { w with side := apply w.side }

/-- `PlayerWindow._on_hide_overlay` (`player.py` lines 530-537): hide
both slots when no position is given, else only the named slot. -/
def on_hide_overlay (w : Overlays) (position : Option String) : Overlays :=
  match position with
  | none => { bottom := hideBanner w.bottom, side := hideBanner w.side }
  | some p =>
    if p = "bottom" then { w with bottom := hideBanner w.bottom }
    else if p = "side" then { w with side := hideBanner w.side }
    else w

/-- Python values a JSON request body can put in the `volume` field. -/
inductive PyVal where
  | pint (n : Int)
  | pbool (b : Bool)
  | pfloat
  | pstr (s : String)
  | pnull
deriving DecidableEq

/-- Python `isinstance(v, int)`: true for ints and also for booleans,
because `bool` is a subclass of `int`. -/
def isinstanceInt : PyVal → Bool
  | PyVal.pint _ => true
  | PyVal.pbool _ => true
  | _ => false

/-- The numeric value Python uses when comparing such a value with
integers (`True == 1`, `False == 0`); only meaningful when
`isinstanceInt` holds. -/
def pyIntValue : PyVal → Int
  | PyVal.pint n => n
  | PyVal.pbool b => if b then 1 else 0
  | _ => 0

/-- Outcome of one HTTP route handler: the JSON `success` flag, the
HTTP status code, and the IPC actions performed while handling it. -/
structure RouteResp where
  success : Bool
  status : Nat
  sent : List IpcAction
deriving DecidableEq

/-- The 400 response of the volume route, sent before any IPC traffic. -/
def volumeReject : RouteResp :=
  { success := false, status := 400, sent := [] }

/-- The `/api/volume` handler (`player.py` lines 313-321): default the
missing field to 50, reject with HTTP 400 unless
`isinstance(volume, int)` and `0 <= volume <= 100`, otherwise call
`MpvProcessManager.set_volume`.  The final match arm is unreachable:
the guard already rejected every value that is not an int or a bool. -/
def set_volume_route (body : Option PyVal) (env : IpcEnv) : RouteResp :=
  let volume := body.getD (PyVal.pint 50)
  if isinstanceInt volume = false ∨ pyIntValue volume < 0 ∨ pyIntValue volume > 100 then
    volumeReject
  else
    match volume with
    | PyVal.pint n =>
      let r := set_volume env (JVal.jint n)
      { success := r.success, status := 200, sent := r.trace }
    | PyVal.pbool b =>
      let r := set_volume env (JVal.jbool b)
      { success := r.success, status := 200, sent := r.trace }
    | _ => volumeReject

/-- Outcome of the `/api/play` and `/api/pause` handlers: the JSON
`success` flag, the JSON `action` string, and the IPC actions performed. -/
structure ApiResp where
  success : Bool
  action : String
  sent : List IpcAction
deriving DecidableEq

/-- The `/api/play` handler (`player.py` lines 273-277): it calls
`play_pause`, not a dedicated play operation. -/
def play_route (env : IpcEnv) : ApiResp :=
  let r := play_pause env
  { success := r.success, action := "play", sent := r.trace }

/-- The `/api/pause` handler (`player.py` lines 279-283): it also calls
`play_pause`. -/
def pause_route (env : IpcEnv) : ApiResp :=
  let r := play_pause env
  { success := r.success, action := "pause", sent := r.trace }

/-- Modelled from the spec and the source docstrings: the effect of one
delivered command on the external player's pause property.  `play_pause`
is documented as "Toggle play/pause" and sends `cycle pause`;
`set pause <bool>` writes the property. -/
def mpvApplyCommand (cmd : List JVal) (paused : Bool) : Bool :=
  if cmd = [JVal.jstr "cycle", JVal.jstr "pause"] then !paused
  else if cmd = [JVal.jstr "set", JVal.jstr "pause", JVal.jbool true] then true
  else if cmd = [JVal.jstr "set", JVal.jstr "pause", JVal.jbool false] then false
  else paused

/-- Session-count state of `PlayerWindow.play_interrupt_ad` callers:
how many secondary (ad) mpv processes have been spawned and how many
`pause` commands were sent to the primary. -/
structure AdWindowState where
  adProcs : Nat
  pausesSent : Nat
deriving DecidableEq

/-- The synchronous part of `PlayerWindow.play_interrupt_ad`
(`player.py` lines 540-576): send `pause` to the primary, spawn a new
secondary mpv process, start the watcher thread, and return.  There is
no check for an already-running session. -/
def play_interrupt_ad_action (w : AdWindowState) : AdWindowState :=
  { adProcs := w.adProcs + 1, pausesSent := w.pausesSent + 1 }

/-- What `self.bridge.parent()` returns when the route's scheduled
callback fires: `PlayerWindow.__init__` (`player.py` line 399) builds
the bridge with `UiBridge()` — no parent — and nothing ever reparents
it, so the parent is always `None`. -/
def bridgeParentInPlayer : Option Unit :=
  none

/-- The `/play-interrupt-ad` route handler (`player.py` lines 347-362):
reject with HTTP 400 when the `file` field is missing, empty (falsy) or
names no existing file; otherwise report success after scheduling, on a
zero-delay single-shot timer, the callback
`self.bridge.parent().play_interrupt_ad(ad_file) if
self.bridge.parent() else None` — which invokes `play_interrupt_ad`
only when the bridge has a parent and otherwise does nothing.
`bridgeParent` is what `self.bridge.parent()` returns when the callback
fires (`bridgeParentInPlayer` in this program).  Result: (JSON success
flag, HTTP status) and the window state after the callback ran. -/
def play_interrupt_ad_route (fileGiven : Option String) (fileOnDisk : String → Bool)
    (bridgeParent : Option Unit) (w : AdWindowState) : (Bool × Nat) × AdWindowState :=
  match fileGiven with
  | none => ((false, 400), w)
  | some f =>
    if f = "" ∨ fileOnDisk f = false then ((false, 400), w)
    else
      match bridgeParent with
      | some _ => ((true, 200), play_interrupt_ad_action w)
      | none => ((true, 200), w)

/-- Scheduler choices for the interruption end-of-session protocol:
the ad process exits, the watcher thread takes a step, or the UI
(owning) thread drains one queued event. -/
inductive IChoice where
  | adExits
  | watcher
  | ui
deriving DecidableEq

/-- Observable events of the end-of-session protocol: the watcher
enqueues the hide-all request (`QTimer.singleShot(0, ...)`), the watcher
sends `resume`, the UI thread actually applies `_on_hide_overlay(None)`. -/
inductive ITraceEv where
  | hideEnqueued
  | resumeIssued
  | hideApplied
deriving DecidableEq

/-- Joint state of the watcher thread spawned by `play_interrupt_ad`
and the UI thread.  `watcherPC`: 0 = blocked in `ad_proc.wait()`,
1 = about to enqueue the hide-all request, 2 = about to send `resume`,
3 = finished.  `uiQueue` holds the pending single-shot callbacks. -/
structure IState where
  adRunning : Bool
  watcherPC : Nat
  uiQueue : List Unit
  bottomVisible : Bool
  sideVisible : Bool
  resumeSent : Bool
  trace : List ITraceEv
deriving DecidableEq

/-- One scheduler step of the end-of-session protocol, mirroring
`_wait_and_resume` (`player.py` lines 570-576): the watcher returns
from `wait()` only after the ad process exits, then enqueues the
hide-all request onto the UI event loop, then sends `resume`; the UI
thread, when scheduled, pops one queued callback and hides both
overlay slots. -/
def istep (st : IState) : IChoice → IState
  | IChoice.adExits => { st with adRunning := false }
  | IChoice.watcher =>
    match st.watcherPC with
    | 0 => if st.adRunning then st else { st with watcherPC := 1 }
    | 1 => { st with uiQueue := st.uiQueue ++ [()], watcherPC := 2, trace := st.trace ++ [ITraceEv.hideEnqueued] }
    | 2 => { st with resumeSent := true, watcherPC := 3, trace := st.trace ++ [ITraceEv.resumeIssued] }
    | _ => st
  | IChoice.ui =>
    match st.uiQueue with
    | [] => st
    | _ :: rest => { st with uiQueue := rest, bottomVisible := false, sideVisible := false, trace := st.trace ++ [ITraceEv.hideApplied] }

/-- Run the protocol under a scheduler. -/
def irun (sched : List IChoice) (st : IState) : IState :=
  sched.foldl istep st

/-- The state at the moment `play_interrupt_ad` returns to its caller:
the ad process runs, the watcher thread has not taken any step yet
(in particular the caller did not execute the blocking `wait()`), and
no resume was sent. -/
def interruptInit (bottomVis sideVis : Bool) : IState :=
  { adRunning := true, watcherPC := 0, uiQueue := [], bottomVisible := bottomVis, sideVisible := sideVis, resumeSent := false, trace := [] }

/-- Checks the order the claim states: the first `hideApplied` precedes
the first `resumeIssued` (vacuously true when no resume appears). -/
def hiddenBeforeResume : List ITraceEv → Bool
  | [] => true
  | ITraceEv.resumeIssued :: _ => false
  | ITraceEv.hideApplied :: _ => true
  | _ :: rest => hiddenBeforeResume rest

/-- Checks the order the code actually guarantees: the hide-all request
is enqueued before `resume` is sent. -/
def enqueuedBeforeResume : List ITraceEv → Bool
  | [] => true
  | ITraceEv.resumeIssued :: _ => false
  | ITraceEv.hideEnqueued :: _ => true
  | _ :: rest => enqueuedBeforeResume rest

/-- A legal schedule in which the watcher finishes before the UI thread
drains the queued hide request. -/
def lateUiSched : List IChoice :=
  [IChoice.adExits, IChoice.watcher, IChoice.watcher, IChoice.watcher, IChoice.ui]

/-- A healthy control channel: socket file present, connect and write
both succeed instantly. -/
def goodIpc : IpcEnv :=
  { socketExists := true, connectResult := none, connectTenths := 0, sendResult := none, sendTenths := 0 }

/-- A `/show-overlay` request for an image with no `duration` field. -/
def imagePayloadNoDuration : ShowPayload :=
  { position := "bottom", adType := "image", content := "x.png", duration := none, scroll := false }

/-- Invariant of the end-of-session protocol: the hide-all request is
enqueued before resume is sent; once the watcher is past the enqueue,
the hide request is either still queued or already applied; once the
watcher finished, resume was sent. -/
def IInv (st : IState) : Prop :=
  enqueuedBeforeResume st.trace = true ∧
  (2 ≤ st.watcherPC → ITraceEv.hideEnqueued ∈ st.trace) ∧
  (2 ≤ st.watcherPC → st.uiQueue ≠ [] ∨ (st.bottomVisible = false ∧ st.sideVisible = false)) ∧
  (3 ≤ st.watcherPC → st.resumeSent = true)

/-- All theorems below are stated over the definitions above; helper
lemmas come first, then one theorem per specification claim together
with its witness or counterexample. -/

theorem connectElapsed_le (env : IpcEnv) (t : Nat) : connectElapsed env t ≤ t := by
  unfold connectElapsed
  rcases env.connectResult with _ | e
  · exact Nat.min_le_right _ _
  · cases e <;> simp [Nat.min_le_right]

theorem sendallElapsed_le (env : IpcEnv) (t : Nat) : sendallElapsed env t ≤ t := by
  unfold sendallElapsed
  rcases env.sendResult with _ | e
  · exact Nat.min_le_right _ _
  · cases e <;> simp [Nat.min_le_right]

/-- C5: the control-channel send never raises: a missing socket path
yields an immediate `false` with no connection attempt and no blocking;
a connect failure (timeout or refusal) and a write failure are caught
and yield `false`; total blocking is bounded by the two socket-timeout
windows, and with the socket absent every control operation returns the
immediate failure result. -/
theorem send_ipc_failure_contract :
    (∀ (cr : Option SockErr) (ct : Nat) (sr : Option SockErr) (sdt t : Nat) (cmd : List JVal),
      send_ipc_command { socketExists := false, connectResult := cr, connectTenths := ct, sendResult := sr, sendTenths := sdt } cmd t =
        { success := false, trace := [], elapsedTenths := 0 }) ∧
    (∀ (e : SockErr) (ct : Nat) (sr : Option SockErr) (sdt t : Nat) (cmd : List JVal),
      (send_ipc_command { socketExists := true, connectResult := some e, connectTenths := ct, sendResult := sr, sendTenths := sdt } cmd t).success = false ∧
      (send_ipc_command { socketExists := true, connectResult := some e, connectTenths := ct, sendResult := sr, sendTenths := sdt } cmd t).trace = [IpcAction.connect] ∧
      (send_ipc_command { socketExists := true, connectResult := some e, connectTenths := ct, sendResult := sr, sendTenths := sdt } cmd t).elapsedTenths ≤ t) ∧
    (∀ (ct : Nat) (e : SockErr) (sdt t : Nat) (cmd : List JVal),
      (send_ipc_command { socketExists := true, connectResult := none, connectTenths := ct, sendResult := some e, sendTenths := sdt } cmd t).success = false) ∧
    (∀ (env : IpcEnv) (cmd : List JVal) (t : Nat),
      (send_ipc_command env cmd t).elapsedTenths ≤ t + t) ∧
    (∀ (cr : Option SockErr) (ct : Nat) (sr : Option SockErr) (sdt : Nat) (n : Int) (v : JVal) (tq : Nat),
      play_pause { socketExists := false, connectResult := cr, connectTenths := ct, sendResult := sr, sendTenths := sdt } = { success := false, trace := [], elapsedTenths := 0 } ∧
      next_video { socketExists := false, connectResult := cr, connectTenths := ct, sendResult := sr, sendTenths := sdt } = { success := false, trace := [], elapsedTenths := 0 } ∧
      previous_video { socketExists := false, connectResult := cr, connectTenths := ct, sendResult := sr, sendTenths := sdt } = { success := false, trace := [], elapsedTenths := 0 } ∧
      seek_forward { socketExists := false, connectResult := cr, connectTenths := ct, sendResult := sr, sendTenths := sdt } n = { success := false, trace := [], elapsedTenths := 0 } ∧
      seek_backward { socketExists := false, connectResult := cr, connectTenths := ct, sendResult := sr, sendTenths := sdt } n = { success := false, trace := [], elapsedTenths := 0 } ∧
      set_volume { socketExists := false, connectResult := cr, connectTenths := ct, sendResult := sr, sendTenths := sdt } v = { success := false, trace := [], elapsedTenths := 0 } ∧
      pause { socketExists := false, connectResult := cr, connectTenths := ct, sendResult := sr, sendTenths := sdt } = { success := false, trace := [], elapsedTenths := 0 } ∧
      resume { socketExists := false, connectResult := cr, connectTenths := ct, sendResult := sr, sendTenths := sdt } = { success := false, trace := [], elapsedTenths := 0 } ∧
      send_ipc_quit { socketExists := false, connectResult := cr, connectTenths := ct, sendResult := sr, sendTenths := sdt } tq = { success := false, trace := [], elapsedTenths := 0 }) := by
  refine ⟨?_, ?_, ?_, ?_, ?_⟩
  · intro cr ct sr sdt t cmd
    simp [send_ipc_command]
  · intro e ct sr sdt t cmd
    refine ⟨?_, ?_, ?_⟩
    · simp [send_ipc_command, sendIpcBody]
    · simp [send_ipc_command, sendIpcBody]
    · simpa [send_ipc_command, sendIpcBody] using
        connectElapsed_le { socketExists := true, connectResult := some e, connectTenths := ct, sendResult := sr, sendTenths := sdt } t
  · intro ct e sdt t cmd
    simp [send_ipc_command, sendIpcBody]
  · intro env cmd t
    rcases env with ⟨se, cr, ct, sr, sdt⟩
    cases se
    · simp [send_ipc_command]
    · rcases cr with _ | e
      · rcases sr with _ | e2
        · simp only [send_ipc_command, sendIpcBody]
          exact Nat.add_le_add (connectElapsed_le _ t) (sendallElapsed_le _ t)
        · simp only [send_ipc_command, sendIpcBody]
          exact Nat.add_le_add (connectElapsed_le _ t) (sendallElapsed_le _ t)
      · simp only [send_ipc_command, sendIpcBody]
        exact le_trans (connectElapsed_le _ t) (Nat.le_add_right t t)
  · intro cr ct sr sdt n v tq
    refine ⟨?_, ?_, ?_, ?_, ?_, ?_, ?_, ?_, ?_⟩ <;>
      simp [play_pause, next_video, previous_video, seek_forward, seek_backward, set_volume, pause, resume, send_ipc_quit, send_ipc_command]

/-- C6: each playback-control operation is a stateless translation to
exactly one newline-terminated JSON message of the documented shape and
content, and it returns only the boolean success of the send: toggle
pause sends `cycle pause`, next `playlist_next`, previous
`playlist_prev`, seek ±n, volume, `set pause` true/false, and quit; a
successful send writes exactly one payload, namely the serialized
command followed by a newline. -/
theorem control_ops_translation :
    (∀ env : IpcEnv, play_pause env = send_ipc_command env [JVal.jstr "cycle", JVal.jstr "pause"] 15) ∧
    (∀ env : IpcEnv, next_video env = send_ipc_command env [JVal.jstr "playlist_next"] 15) ∧
    (∀ env : IpcEnv, previous_video env = send_ipc_command env [JVal.jstr "playlist_prev"] 15) ∧
    (∀ (env : IpcEnv) (n : Int), seek_forward env n = send_ipc_command env [JVal.jstr "seek", JVal.jint n] 15) ∧
    (∀ (env : IpcEnv) (n : Int), seek_backward env n = send_ipc_command env [JVal.jstr "seek", JVal.jint (-n)] 15) ∧
    (∀ (env : IpcEnv) (v : JVal), set_volume env v = send_ipc_command env [JVal.jstr "set", JVal.jstr "volume", v] 15) ∧
    (∀ env : IpcEnv, pause env = send_ipc_command env [JVal.jstr "set", JVal.jstr "pause", JVal.jbool true] 15) ∧
    (∀ env : IpcEnv, resume env = send_ipc_command env [JVal.jstr "set", JVal.jstr "pause", JVal.jbool false] 15) ∧
    (∀ (env : IpcEnv) (t : Nat), send_ipc_quit env t = send_ipc_command env [JVal.jstr "quit"] t) ∧
    (∀ (ct sdt t : Nat) (cmd : List JVal),
      (send_ipc_command { socketExists := true, connectResult := none, connectTenths := ct, sendResult := none, sendTenths := sdt } cmd t).success = true ∧
      (send_ipc_command { socketExists := true, connectResult := none, connectTenths := ct, sendResult := none, sendTenths := sdt } cmd t).trace =
        [IpcAction.connect, IpcAction.write (ipcPayload cmd)]) ∧
    (∀ cmd : List JVal, ipcPayload cmd = "\x7b\"command\": [" ++ dumpsElems cmd ++ "]\x7d\n") ∧
    ipcPayload [JVal.jstr "cycle", JVal.jstr "pause"] = "\x7b\"command\": [\"cycle\", \"pause\"]\x7d\n" ∧
    ipcPayload [JVal.jstr "playlist_next"] = "\x7b\"command\": [\"playlist_next\"]\x7d\n" ∧
    ipcPayload [JVal.jstr "playlist_prev"] = "\x7b\"command\": [\"playlist_prev\"]\x7d\n" ∧
    ipcPayload [JVal.jstr "seek", JVal.jint 30] = "\x7b\"command\": [\"seek\", 30]\x7d\n" ∧
    ipcPayload [JVal.jstr "seek", JVal.jint (-30)] = "\x7b\"command\": [\"seek\", -30]\x7d\n" ∧
    ipcPayload [JVal.jstr "set", JVal.jstr "volume", JVal.jint 50] = "\x7b\"command\": [\"set\", \"volume\", 50]\x7d\n" ∧
    ipcPayload [JVal.jstr "set", JVal.jstr "pause", JVal.jbool true] = "\x7b\"command\": [\"set\", \"pause\", true]\x7d\n" ∧
    ipcPayload [JVal.jstr "set", JVal.jstr "pause", JVal.jbool false] = "\x7b\"command\": [\"set\", \"pause\", false]\x7d\n" ∧
    ipcPayload [JVal.jstr "quit"] = "\x7b\"command\": [\"quit\"]\x7d\n" := by
  refine ⟨fun _ => rfl, fun _ => rfl, fun _ => rfl, fun _ _ => rfl, fun _ _ => rfl,
    fun _ _ => rfl, fun _ => rfl, fun _ => rfl, fun _ _ => rfl, ?_,
    fun _ => rfl, rfl, rfl, rfl, rfl, rfl, rfl, rfl, rfl, rfl⟩
  intro ct sdt t cmd
  constructor
  · simp [send_ipc_command, sendIpcBody]
  · simp [send_ipc_command, sendIpcBody]

/-- C10: `/api/play` and `/api/pause` invoke the same underlying toggle:
for every channel environment they report the same success flag and
perform exactly the same IPC traffic, namely the single `cycle pause`
command (only the echoed `action` string differs); since `cycle pause`
toggles the pause property, `/api/pause` on an already-paused player
resumes it, so neither endpoint guarantees a specific outcome. -/
theorem api_play_pause_same_effect :
    (∀ env : IpcEnv, (play_route env).success = (pause_route env).success) ∧
    (∀ env : IpcEnv, (play_route env).sent = (pause_route env).sent) ∧
    (∀ env : IpcEnv, (play_route env).sent = (play_pause env).trace ∧ (pause_route env).sent = (play_pause env).trace) ∧
    (∀ env : IpcEnv, (play_route env).action = "play" ∧ (pause_route env).action = "pause") ∧
    (∀ env : IpcEnv, play_pause env = send_ipc_command env [JVal.jstr "cycle", JVal.jstr "pause"] 15) ∧
    (∀ paused : Bool, mpvApplyCommand [JVal.jstr "cycle", JVal.jstr "pause"] paused = !paused) ∧
    mpvApplyCommand [JVal.jstr "cycle", JVal.jstr "pause"] true = false := by
  refine ⟨fun _ => rfl, fun _ => rfl, fun _ => ⟨rfl, rfl⟩, fun _ => ⟨rfl, rfl⟩, fun _ => rfl, ?_, by decide⟩
  intro paused
  simp [mpvApplyCommand]

/-- C7 counterexample: the JSON boolean `true` is not an integer, yet
`/api/volume` accepts it (Python booleans satisfy
`isinstance(volume, int)`) and sends a `set volume` command whose
serialized payload carries the literal `true`; the claim requires every
non-integer value to be rejected before any channel send. -/
theorem volume_route_bool_counterexample :
    set_volume_route (some (PyVal.pbool true)) goodIpc =
      { success := true, status := 200,
        sent := [IpcAction.connect, IpcAction.write "\x7b\"command\": [\"set\", \"volume\", true]\x7d\n"] } := by
  rfl

/-- C7 (amended): the volume route rejects with HTTP 400, before any
channel send, every value whose Python type is not `int` or `bool`
(strings, floats, null) and every integer outside `[0, 100]`; every
integer `v` in `[0, 100]` is forwarded as the single command
`set volume v`; but, because `bool` subclasses `int` in Python, the
JSON booleans are accepted and forwarded literally rather than
rejected; a missing field defaults to 50. -/
theorem volume_route_validation :
    ∀ env : IpcEnv,
    (∀ s : String, set_volume_route (some (PyVal.pstr s)) env = volumeReject) ∧
    (set_volume_route (some PyVal.pfloat) env = volumeReject) ∧
    (set_volume_route (some PyVal.pnull) env = volumeReject) ∧
    (∀ d : Nat, set_volume_route (some (PyVal.pint (-1 - (d : Int)))) env = volumeReject) ∧
    (∀ d : Nat, set_volume_route (some (PyVal.pint (101 + (d : Int)))) env = volumeReject) ∧
    (∀ n : Nat, n ≤ 100 → set_volume_route (some (PyVal.pint (n : Int))) env =
      { success := (set_volume env (JVal.jint (n : Int))).success, status := 200,
        sent := (set_volume env (JVal.jint (n : Int))).trace }) ∧
    (∀ b : Bool, set_volume_route (some (PyVal.pbool b)) env =
      { success := (set_volume env (JVal.jbool b)).success, status := 200,
        sent := (set_volume env (JVal.jbool b)).trace }) ∧
    (set_volume_route none env = set_volume_route (some (PyVal.pint 50)) env) := by
  intro env
  refine ⟨?_, ?_, ?_, ?_, ?_, ?_, ?_, ?_⟩
  · intro s
    simp [set_volume_route, isinstanceInt, volumeReject]
  · simp [set_volume_route, isinstanceInt, volumeReject]
  · simp [set_volume_route, isinstanceInt, volumeReject]
  · intro d
    have h : (-1 - (d : Int)) < 0 := by omega
    simp [set_volume_route, isinstanceInt, pyIntValue, h, volumeReject]
  · intro d
    have h : (101 + (d : Int)) > 100 := by omega
    simp [set_volume_route, isinstanceInt, pyIntValue, h, volumeReject]
  · intro n hn
    have h0 : ¬ ((n : Int) < 0) := by omega
    have h1 : ¬ ((n : Int) > 100) := by omega
    simp [set_volume_route, isinstanceInt, pyIntValue, h0, h1]
  · intro b
    cases b <;> simp [set_volume_route, isinstanceInt, pyIntValue]
  · rfl

/-- C7 witness: the in-range value 50 is forwarded as `set volume 50`. -/
theorem volume_route_validation_witness :
    set_volume_route (some (PyVal.pint 50)) goodIpc =
      { success := (set_volume goodIpc (JVal.jint 50)).success, status := 200,
        sent := (set_volume goodIpc (JVal.jint 50)).trace } :=
  ((volume_route_validation goodIpc).2.2.2.2.2.1 50 (by decide))

/-- C8 counterexample: a `request_show` for an image with the
`duration` field absent arms a 10-second auto-hide timer (the code
defaults an absent duration to 10 for images), and the slot is hidden
once it fires, with no explicit `request_hide`; the claim says an
absent duration keeps the slot visible until an explicit hide. -/
theorem overlay_autohide_counterexample :
    ((on_show_overlay { bottom := initBanner, side := initBanner } imagePayloadNoDuration).bottom.visible = true) ∧
    ((on_show_overlay { bottom := initBanner, side := initBanner } imagePayloadNoDuration).bottom.autohideMs = some 10000) ∧
    ((elapseBanner (on_show_overlay { bottom := initBanner, side := initBanner } imagePayloadNoDuration).bottom 10000).visible = false) := by
  refine ⟨rfl, rfl, rfl⟩

/-- C8 (amended): on every `request_show` the previously armed
auto-hide timer is cancelled (the armed timer after the call does not
depend on the timer before it); for text content a new timer of
`duration` seconds is armed exactly when the duration is positive, and
a zero/negative or absent duration leaves no timer, so the slot stays
visible until an explicit `request_hide`; for image content a positive
duration arms the timer, a zero/negative duration leaves no timer, but
an absent duration arms a default 10-second timer; an armed timer hides
the slot once its duration has elapsed, and a slot with no armed timer
is untouched by the passage of time. -/
theorem overlay_autohide_behavior :
    ∀ (w : Overlays) (c : String) (sc : Bool),
    (∀ (a b : Option Nat) (kind : String) (dur : Option Int),
      (on_show_overlay { w with bottom := { w.bottom with autohideMs := a } } { position := "bottom", adType := kind, content := c, duration := dur, scroll := sc }).bottom.autohideMs =
      (on_show_overlay { w with bottom := { w.bottom with autohideMs := b } } { position := "bottom", adType := kind, content := c, duration := dur, scroll := sc }).bottom.autohideMs) ∧
    (∀ d : Nat, (on_show_overlay w { position := "bottom", adType := "text", content := c, duration := some ((d : Int) + 1), scroll := sc }).bottom.autohideMs = some (1000 * (d + 1))) ∧
    (∀ d : Nat, (on_show_overlay w { position := "bottom", adType := "text", content := c, duration := some (-(d : Int)), scroll := sc }).bottom.autohideMs = none) ∧
    ((on_show_overlay w { position := "bottom", adType := "text", content := c, duration := none, scroll := sc }).bottom.autohideMs = none) ∧
    ((on_show_overlay w { position := "bottom", adType := "text", content := c, duration := none, scroll := sc }).bottom.visible = true) ∧
    (∀ d : Nat, (on_show_overlay w { position := "side", adType := "text", content := c, duration := some ((d : Int) + 1), scroll := sc }).side.autohideMs = some (1000 * (d + 1))) ∧
    (∀ d : Nat, (on_show_overlay w { position := "bottom", adType := "image", content := c, duration := some ((d : Int) + 1), scroll := sc }).bottom.autohideMs = some (1000 * (d + 1))) ∧
    (∀ d : Nat, (on_show_overlay w { position := "bottom", adType := "image", content := c, duration := some (-(d : Int)), scroll := sc }).bottom.autohideMs = none) ∧
    ((on_show_overlay w { position := "bottom", adType := "image", content := c, duration := none, scroll := sc }).bottom.autohideMs = some 10000) ∧
    (∀ (st : BannerState) (d t : Nat), (elapseBanner { st with autohideMs := some d } (d + t)).visible = false) ∧
    (∀ (st : BannerState) (t : Nat), elapseBanner { st with autohideMs := none } t = { st with autohideMs := none }) ∧
    (∀ w2 : Overlays, (on_hide_overlay w2 none).bottom.visible = false ∧ (on_hide_overlay w2 none).side.visible = false) := by
  intro w c sc
  have harm : ∀ d : Nat, (((d : Int) + 1) * 1000).toNat = 1000 * (d + 1) := by
    intro d
    omega
  refine ⟨?_, ?_, ?_, ?_, ?_, ?_, ?_, ?_, ?_, ?_, ?_, ?_⟩
  · intro a b kind dur
    by_cases hk : kind = "text" <;>
      simp [on_show_overlay, show_text, show_image, set_autohide, hk]
  · intro d
    have hd : ((d : Int) + 1) > 0 := by omega
    simp [on_show_overlay, show_text, set_autohide, hd, harm d]
  · intro d
    have hd : ¬ (-(d : Int) > 0) := by omega
    simp [on_show_overlay, show_text, set_autohide, hd]
  · simp [on_show_overlay, show_text, set_autohide]
  · simp [on_show_overlay, show_text, set_autohide]
  · intro d
    have hd : ((d : Int) + 1) > 0 := by omega
    simp [on_show_overlay, show_text, set_autohide, hd, harm d]
  · intro d
    have hd : ((d : Int) + 1) > 0 := by omega
    simp [on_show_overlay, show_image, set_autohide, hd, harm d]
  · intro d
    have hd : ¬ (-(d : Int) > 0) := by omega
    simp [on_show_overlay, show_image, set_autohide, hd]
  · simp [on_show_overlay, show_image, set_autohide]
  · intro st d t
    simp [elapseBanner, Nat.le_add_right]
  · intro st t
    simp [elapseBanner]
  · intro w2
    exact ⟨rfl, rfl⟩

/-- C9 counterexample: with the marquee enabled on text whose rendered
width (`horizontalAdvance`) is 10 pixels, six ticks from a fresh
`show_text` put the scroll offset at 12, which is not below the
rendered text width: the code wraps modulo the rendered width plus a
100-pixel gap, not modulo the rendered width itself. -/
theorem marquee_bound_counterexample :
    ((Nat.iterate (fun s => tick_marquee s 10) 6 (show_text initBanner "abc" true none)).marqueePos = 12) ∧
    ¬ ((Nat.iterate (fun s => tick_marquee s 10) 6 (show_text initBanner "abc" true none)).marqueePos < 10) := by
  refine ⟨rfl, by decide⟩

/-- C9 (amended): `show_text` with `scroll=true` enables the marquee,
starts its timer and resets the offset to 0; every tick with the
marquee enabled advances the offset by 2 and wraps it modulo
`horizontalAdvance(text) + 100`, so after every tick the offset
satisfies `0 ≤ offset < rendered width + 100` (not `< rendered width`);
a tick with the marquee disabled changes nothing. -/
theorem marquee_wrap_invariant :
    ∀ (st : BannerState) (adv : Nat),
    ((tick_marquee { st with marqueeEnabled := true } adv).marqueePos = (st.marqueePos + 2) % (adv + 100)) ∧
    ((tick_marquee { st with marqueeEnabled := true } adv).marqueePos < adv + 100) ∧
    (tick_marquee { st with marqueeEnabled := false } adv = { st with marqueeEnabled := false }) ∧
    (∀ (text : String) (dur : Option Int),
      (show_text st text true dur).marqueeEnabled = true ∧
      (show_text st text true dur).marqueeRunning = true ∧
      (show_text st text true dur).marqueePos = 0) := by
  intro st adv
  have hmax : max 1 (adv + 100) = adv + 100 := by omega
  refine ⟨?_, ?_, ?_, ?_⟩
  · simp [tick_marquee, hmax]
  · simp only [tick_marquee]
    simp [hmax]
    exact Nat.mod_lt _ (by omega)
  · simp [tick_marquee]
  · intro text dur
    cases dur with
    | none => exact ⟨rfl, rfl, rfl⟩
    | some d =>
      refine ⟨?_, ?_, ?_⟩ <;> simp [show_text, set_autohide] <;> by_cases hd : d > 0 <;> simp [hd]

/-- C4 counterexample: with an interruption session already in flight
(one secondary process live, started through the direct
`play_interrupt_ad` path), a second `/play-interrupt-ad` request for an
existing file does not fail fast: it is accepted with HTTP 200 and JSON
success (no AlreadyInProgress error exists in the code); the window
state is unchanged because the scheduled callback is guarded by
`self.bridge.parent()`, which is always `None`, so the route spawns
nothing at all. -/
theorem single_session_counterexample :
    play_interrupt_ad_route (some "ad.mp4") (fun _ => true) bridgeParentInPlayer
        { adProcs := 1, pausesSent := 1 } =
      ((true, 200), { adProcs := 1, pausesSent := 1 }) := by
  rfl

/-- C4 (amended): the single-session invariant is not enforced by any
guard: for any existing, non-empty file path, `/play-interrupt-ad`
reports success regardless of how many sessions are already in flight,
and only a missing, empty, or non-existing file is rejected (with HTTP
400, never AlreadyInProgress).  No competing secondary process is
spawned, but only because the scheduled callback is guarded by
`self.bridge.parent()`, which is always `None` in this program (the
bridge is built parentless and never reparented), so the route never
invokes `play_interrupt_ad` at all; had the bridge a parent, the
acceptance would spawn a fresh secondary process unconditionally. -/
theorem single_session_unguarded :
    ∀ (w : AdWindowState) (f : String) (fx : String → Bool),
    (f ≠ "" → fx f = true →
      play_interrupt_ad_route (some f) fx bridgeParentInPlayer w = ((true, 200), w)) ∧
    (∀ bp : Option Unit, play_interrupt_ad_route none fx bp w = ((false, 400), w)) ∧
    (∀ bp : Option Unit, play_interrupt_ad_route (some f) (fun _ => false) bp w = ((false, 400), w)) ∧
    (f ≠ "" → fx f = true →
      play_interrupt_ad_route (some f) fx (some ()) w =
        ((true, 200), { adProcs := w.adProcs + 1, pausesSent := w.pausesSent + 1 })) := by
  intro w f fx
  refine ⟨?_, fun bp => rfl, ?_, ?_⟩
  · intro hf hx
    simp [play_interrupt_ad_route, hf, hx, bridgeParentInPlayer]
  · intro bp
    by_cases hf : f = "" <;> simp [play_interrupt_ad_route, hf]
  · intro hf hx
    simp [play_interrupt_ad_route, hf, hx, play_interrupt_ad_action]

/-- C4 witness: a valid request against the program's parentless bridge
is accepted and leaves the window state unchanged. -/
theorem single_session_unguarded_witness :
    play_interrupt_ad_route (some "ad.mp4") (fun _ => true) bridgeParentInPlayer
        { adProcs := 0, pausesSent := 0 } =
      ((true, 200), { adProcs := 0, pausesSent := 0 }) :=
  (single_session_unguarded { adProcs := 0, pausesSent := 0 } "ad.mp4" (fun _ => true)).1
    (by decide) rfl

/-- C1: `stop()` with no active process is a no-op (it returns before
touching the socket file); `stop()` on an active process always ends
with the handle cleared and the control-socket file removed, whatever
the quit send, the polls, and the terminate wait did — the two cleanup
events close every trace, mirroring the `finally:` block — and the
model is a total function, mirroring that every exception the body can
raise is caught. -/
theorem stop_clears_handle_and_socket :
    ∀ (ipc : IpcEnv) (b : ProcBehavior) (s : Bool),
    (stop { process := none, socketExists := s } ipc b = ({ process := none, socketExists := s }, [])) ∧
    ((stop { process := some (), socketExists := s } ipc b).1 = { process := none, socketExists := false }) ∧
    (∃ pre, (stop { process := some (), socketExists := s } ipc b).2 =
      pre ++ [StopEvent.clearHandle, StopEvent.removeSocket]) := by
  intro ipc b s
  refine ⟨rfl, rfl, ?_⟩
  refine ⟨StopEvent.sendQuit (send_ipc_command ipc [JVal.jstr "quit"] 15).success (send_ipc_command ipc [JVal.jstr "quit"] 15).elapsedTenths ::
    stopLoopEvents b (send_ipc_command ipc [JVal.jstr "quit"] 15).success ++
    stopAfterQuit b (countPolls (stopLoopEvents b (send_ipc_command ipc [JVal.jstr "quit"] 15).success)), ?_⟩
  simp [stop, stopEvents]

theorem quitPollLoop_stage (b : ProcBehavior) :
    ∀ (n i : Nat), ∀ e ∈ quitPollLoop b n i, stopStage e = 1 := by
  intro n
  induction n with
  | zero => intro i e he; simp [quitPollLoop] at he
  | succ m ih =>
    intro i e he
    by_cases hx : b.exitedAtPoll i
    · simp [quitPollLoop, hx] at he
      simp [he, stopStage]
    · simp [quitPollLoop, hx] at he
      rcases he with h | h | h
      · simp [h, stopStage]
      · simp [h, stopStage]
      · exact ih (i + 1) e h

theorem sleepCount_quitPollLoop (b : ProcBehavior) :
    ∀ (n i : Nat), sleepCount (quitPollLoop b n i) ≤ n := by
  intro n
  induction n with
  | zero => intro i; simp [quitPollLoop, sleepCount]
  | succ m ih =>
    intro i
    by_cases hx : b.exitedAtPoll i
    · simp [quitPollLoop, hx, sleepCount]
    · simp only [quitPollLoop, hx, if_false, Bool.false_eq_true]
      simp only [sleepCount, List.countP_cons]
      have := ih (i + 1)
      simp only [sleepCount] at this
      simp
      omega

theorem waitTime_append :
    ∀ (l1 l2 : List StopEvent), waitTime (l1 ++ l2) = waitTime l1 + waitTime l2 := by
  intro l1
  induction l1 with
  | nil => intro l2; simp [waitTime]
  | cons hd tl ih =>
    intro l2
    cases hd <;> simp [waitTime, ih]
    omega

theorem waitTime_quitPollLoop (b : ProcBehavior) :
    ∀ (n i : Nat), waitTime (quitPollLoop b n i) = 0 := by
  intro n
  induction n with
  | zero => intro i; simp [quitPollLoop, waitTime]
  | succ m ih =>
    intro i
    by_cases hx : b.exitedAtPoll i
    · simp [quitPollLoop, hx, waitTime]
    · simp [quitPollLoop, hx, waitTime, ih (i + 1)]

theorem pairwise_le_of_all_one :
    ∀ l : List Nat, (∀ x ∈ l, x = 1) → l.Pairwise (fun a b => a ≤ b) := by
  intro l
  induction l with
  | nil => intro _; exact List.Pairwise.nil
  | cons hd tl ih =>
    intro h
    refine List.Pairwise.cons ?_ (ih fun x hx => h x (List.mem_cons_of_mem hd hx))
    intro y hy
    rw [h hd (List.mem_cons_self hd tl), h y (List.mem_cons_of_mem hd hy)]

theorem stopLoopEvents_stage (b : ProcBehavior) (qs : Bool) :
    ∀ e ∈ stopLoopEvents b qs, stopStage e = 1 := by
  intro e he
  cases qs
  · simp [stopLoopEvents] at he
  · exact quitPollLoop_stage b 15 0 e (by simpa [stopLoopEvents] using he)

theorem sleepCount_stopLoopEvents (b : ProcBehavior) (qs : Bool) :
    sleepCount (stopLoopEvents b qs) ≤ 15 := by
  cases qs
  · simp [stopLoopEvents, sleepCount]
  · simpa [stopLoopEvents] using sleepCount_quitPollLoop b 15 0

theorem waitTime_stopLoopEvents (b : ProcBehavior) (qs : Bool) :
    waitTime (stopLoopEvents b qs) = 0 := by
  cases qs
  · simp [stopLoopEvents, waitTime]
  · simpa [stopLoopEvents] using waitTime_quitPollLoop b 15 0

theorem stopAfterQuit_stage_cases (b : ProcBehavior) (idx : Nat) :
    (stopAfterQuit b idx).map stopStage = [1] ∨
    (stopAfterQuit b idx).map stopStage = [1, 2, 3] ∨
    (stopAfterQuit b idx).map stopStage = [1, 2, 3, 4] := by
  by_cases hx : b.exitedAtPoll idx
  · left
    simp [stopAfterQuit, hx, stopStage]
  · by_cases hw : b.waitExits
    · right; left
      simp [stopAfterQuit, hx, hw, stopStage]
    · right; right
      simp [stopAfterQuit, hx, hw, stopStage]

theorem sleepCount_stopAfterQuit (b : ProcBehavior) (idx : Nat) :
    sleepCount (stopAfterQuit b idx) = 0 := by
  by_cases hx : b.exitedAtPoll idx
  · simp [stopAfterQuit, hx, sleepCount]
  · by_cases hw : b.waitExits <;> simp [stopAfterQuit, hx, hw, sleepCount]

theorem waitTime_stopAfterQuit (b : ProcBehavior) (idx : Nat) :
    waitTime (stopAfterQuit b idx) ≤ 20 := by
  by_cases hx : b.exitedAtPoll idx
  · simp [stopAfterQuit, hx, waitTime]
  · by_cases hw : b.waitExits
    · simp [stopAfterQuit, hx, hw, waitTime]
    · simp [stopAfterQuit, hx, hw, waitTime]

/-- C2: `stop()` on an active process escalates in fixed order — quit
send, at most 15 polls separated by 0.1-second sleeps, one more poll,
terminate, a wait of at most 2 seconds, kill, cleanup (the event stages
are monotone in every trace) — and its waiting is bounded by 15 sleeps
plus the 2-second wait (3.5 s in total); a process that ignores both
the quit command and the terminate request yields exactly the full
escalation trace, with the kill, and exactly 3.5 s of waiting. -/
theorem stop_escalation_order_and_bounds :
    (∀ (ipc : IpcEnv) (b : ProcBehavior) (s : Bool),
      (((stop { process := some (), socketExists := s } ipc b).2.map stopStage).Pairwise (fun a c => a ≤ c)) ∧
      sleepCount (stop { process := some (), socketExists := s } ipc b).2 ≤ 15 ∧
      waitTime (stop { process := some (), socketExists := s } ipc b).2 ≤ 20 ∧
      stopWaitTenths (stop { process := some (), socketExists := s } ipc b).2 ≤ 35) ∧
    (∀ (ct sdt : Nat) (s : Bool),
      stop { process := some (), socketExists := s }
        { socketExists := true, connectResult := none, connectTenths := ct, sendResult := none, sendTenths := sdt }
        stubbornProc =
      ({ process := none, socketExists := false },
        StopEvent.sendQuit true (min ct 15 + min sdt 15) ::
          (List.replicate 15 [StopEvent.pollEv false, StopEvent.sleepTenth]).flatten ++
          ([StopEvent.pollEv false, StopEvent.terminateEv, StopEvent.waitTwo false 20, StopEvent.killEv] ++
            [StopEvent.clearHandle, StopEvent.removeSocket]))) ∧
    (∀ (ct sdt : Nat) (s : Bool),
      stopWaitTenths
        (stop { process := some (), socketExists := s }
          { socketExists := true, connectResult := none, connectTenths := ct, sendResult := none, sendTenths := sdt }
          stubbornProc).2 = 35 ∧
      StopEvent.killEv ∈
        (stop { process := some (), socketExists := s }
          { socketExists := true, connectResult := none, connectTenths := ct, sendResult := none, sendTenths := sdt }
          stubbornProc).2) := by
  have hscen : ∀ (ct sdt : Nat) (s : Bool),
      stop { process := some (), socketExists := s }
        { socketExists := true, connectResult := none, connectTenths := ct, sendResult := none, sendTenths := sdt }
        stubbornProc =
      ({ process := none, socketExists := false },
        StopEvent.sendQuit true (min ct 15 + min sdt 15) ::
          (List.replicate 15 [StopEvent.pollEv false, StopEvent.sleepTenth]).flatten ++
          ([StopEvent.pollEv false, StopEvent.terminateEv, StopEvent.waitTwo false 20, StopEvent.killEv] ++
            [StopEvent.clearHandle, StopEvent.removeSocket])) := by
    intro ct sdt s
    rfl
  refine ⟨?_, hscen, ?_⟩
  · intro ipc b s
    have hev : (stop { process := some (), socketExists := s } ipc b).2 =
        stopEvents b (send_ipc_command ipc [JVal.jstr "quit"] 15) := rfl
    rw [hev]
    set q := send_ipc_command ipc [JVal.jstr "quit"] 15 with hqdef
    set loopEvs := stopLoopEvents b q.success with hloop
    set after := stopAfterQuit b (countPolls loopEvs) with hafter
    have hevs : stopEvents b q = StopEvent.sendQuit q.success q.elapsedTenths ::
        loopEvs ++ (after ++ [StopEvent.clearHandle, StopEvent.removeSocket]) := by
      simp [stopEvents, hloop, hafter]
    rw [hevs]
    have hsleep : sleepCount (StopEvent.sendQuit q.success q.elapsedTenths ::
        loopEvs ++ (after ++ [StopEvent.clearHandle, StopEvent.removeSocket])) ≤ 15 := by
      simp only [sleepCount, List.countP_cons, List.countP_append]
      have h1 := sleepCount_stopLoopEvents b q.success
      have h2 := sleepCount_stopAfterQuit b (countPolls loopEvs)
      simp only [sleepCount] at h1 h2
      rw [← hloop] at h1
      rw [← hafter] at h2
      simp [h2]
      omega
    have hwait : waitTime (StopEvent.sendQuit q.success q.elapsedTenths ::
        loopEvs ++ (after ++ [StopEvent.clearHandle, StopEvent.removeSocket])) ≤ 20 := by
      have hcons : waitTime (StopEvent.sendQuit q.success q.elapsedTenths ::
          loopEvs ++ (after ++ [StopEvent.clearHandle, StopEvent.removeSocket])) =
          waitTime (loopEvs ++ (after ++ [StopEvent.clearHandle, StopEvent.removeSocket])) := rfl
      rw [hcons, waitTime_append, waitTime_append]
      have h1 := waitTime_stopLoopEvents b q.success
      rw [← hloop] at h1
      have h2 := waitTime_stopAfterQuit b (countPolls loopEvs)
      rw [← hafter] at h2
      have h3 : waitTime [StopEvent.clearHandle, StopEvent.removeSocket] = 0 := rfl
      omega
    refine ⟨?_, hsleep, hwait, ?_⟩
    · simp only [List.map_cons, List.map_append]
      refine List.pairwise_cons.mpr ⟨fun y _ => Nat.zero_le y, ?_⟩
      refine (List.pairwise_append).mpr ⟨?_, ?_, ?_⟩
      · refine pairwise_le_of_all_one _ ?_
        intro x hx
        rcases List.mem_map.mp hx with ⟨e, he, rfl⟩
        exact stopLoopEvents_stage b q.success e he
      · rcases stopAfterQuit_stage_cases b (countPolls loopEvs) with h | h | h <;>
          rw [← hafter] at h <;> rw [h] <;> decide
      · intro x hx y hy
        rcases List.mem_map.mp hx with ⟨e, he, rfl⟩
        rw [stopLoopEvents_stage b q.success e he]
        rcases List.mem_append.mp hy with hy1 | hy2
        · rcases stopAfterQuit_stage_cases b (countPolls loopEvs) with h | h | h <;>
            rw [← hafter] at h <;> rw [h] at hy1 <;> simp at hy1 <;> omega
        · simp at hy2
          rcases hy2 with rfl | rfl <;> decide
    · simp only [stopWaitTenths]
      omega
  · intro ct sdt s
    constructor
    · rw [hscen ct sdt s]
      simp only [stopWaitTenths]
      rfl
    · rw [hscen ct sdt s]
      exact List.mem_cons_of_mem _
        (List.mem_append_right _ (List.mem_append_left _ (by decide)))

theorem ebr_append :
    ∀ (tr : List ITraceEv) (e : ITraceEv),
    enqueuedBeforeResume tr = true →
    (e = ITraceEv.resumeIssued → ITraceEv.hideEnqueued ∈ tr) →
    enqueuedBeforeResume (tr ++ [e]) = true := by
  intro tr
  induction tr with
  | nil =>
    intro e h1 h2
    cases e with
    | hideEnqueued => rfl
    | resumeIssued => simpa using h2 rfl
    | hideApplied => rfl
  | cons hd tl ih =>
    intro e h1 h2
    cases hd with
    | hideEnqueued => rfl
    | resumeIssued => simp [enqueuedBeforeResume] at h1
    | hideApplied =>
      have h2tl : e = ITraceEv.resumeIssued → ITraceEv.hideEnqueued ∈ tl := by
        intro he
        have hm := h2 he
        simp only [List.mem_cons] at hm
        rcases hm with h | h
        · exact absurd h (by decide)
        · exact h
      exact ih e h1 h2tl

theorem istep_preserves_inv (st : IState) (c : IChoice) (h : IInv st) : IInv (istep st c) := by
  obtain ⟨h1, h2, h3, h4⟩ := h
  cases c with
  | adExits => exact ⟨h1, h2, h3, h4⟩
  | watcher =>
    rcases hpc : st.watcherPC with _ | (_ | (_ | n))
    · by_cases ha : st.adRunning <;> simp only [istep, hpc, ha, if_true, if_false]
      · exact ⟨h1, h2, h3, h4⟩
      · refine ⟨h1, ?_, ?_, ?_⟩ <;> intro hh <;> simp at hh
    · simp only [istep, hpc]
      refine ⟨?_, ?_, ?_, ?_⟩
      · exact ebr_append st.trace ITraceEv.hideEnqueued h1 (fun he => absurd he (by decide))
      · intro _
        exact List.mem_append_right _ (by decide)
      · intro _
        left
        simp
      · intro hh
        simp at hh
    · simp only [istep, hpc]
      have hpc2 : 2 ≤ st.watcherPC := by omega
      refine ⟨?_, ?_, ?_, ?_⟩
      · exact ebr_append st.trace ITraceEv.resumeIssued h1 (fun _ => h2 hpc2)
      · intro _
        exact List.mem_append_left _ (h2 hpc2)
      · intro _
        exact h3 hpc2
      · intro _
        rfl
    · simp only [istep, hpc]
      exact ⟨h1, h2, h3, h4⟩
  | ui =>
    rcases hq : st.uiQueue with _ | ⟨u, rest⟩
    · simp only [istep, hq]
      exact ⟨h1, h2, h3, h4⟩
    · simp only [istep, hq]
      refine ⟨?_, ?_, ?_, ?_⟩
      · exact ebr_append st.trace ITraceEv.hideApplied h1 (fun he => absurd he (by decide))
      · intro hh
        exact List.mem_append_left _ (h2 hh)
      · intro _
        right
        exact ⟨rfl, rfl⟩
      · intro hh
        exact h4 hh

theorem irun_preserves_inv :
    ∀ (sched : List IChoice) (st : IState), IInv st → IInv (irun sched st) := by
  intro sched
  induction sched with
  | nil => intro st h; exact h
  | cons c cs ih =>
    intro st h
    exact ih (istep st c) (istep_preserves_inv st c h)

theorem interruptInit_inv (bv sv : Bool) : IInv (interruptInit bv sv) := by
  refine ⟨rfl, ?_, ?_, ?_⟩ <;> intro h <;> simp [interruptInit] at h

/-- C3 counterexample: under the legal schedule in which the watcher
thread runs to completion before the UI thread drains its event queue,
the completed execution hides both overlays and sends resume, but the
`resume` command is issued strictly before the hide is applied: the
watcher only enqueues the hide via a zero-delay single-shot timer and
then sends resume synchronously, so "overlays hidden before resume is
issued" does not hold. -/
theorem interruption_order_counterexample :
    ((irun lateUiSched (interruptInit true true)).watcherPC = 3) ∧
    ((irun lateUiSched (interruptInit true true)).uiQueue = []) ∧
    ((irun lateUiSched (interruptInit true true)).bottomVisible = false) ∧
    ((irun lateUiSched (interruptInit true true)).sideVisible = false) ∧
    ((irun lateUiSched (interruptInit true true)).resumeSent = true) ∧
    ((irun lateUiSched (interruptInit true true)).trace =
      [ITraceEv.hideEnqueued, ITraceEv.resumeIssued, ITraceEv.hideApplied]) ∧
    (hiddenBeforeResume (irun lateUiSched (interruptInit true true)).trace = false) := by
  decide

/-- C3 (amended): when the secondary process exits, the watcher
enqueues the hide-both-overlays request before it sends `resume` (in
every schedule), and every execution in which the watcher finished and
the UI queue is drained ends with both overlay slots hidden and resume
sent; the caller of `play_interruption` is never blocked: at the moment
the call returns the watcher has taken no step and nothing has been
waited on.  The actual application of the hide, however, races with the
resume send (see the counterexample). -/
theorem interruption_watcher_contract :
    ∀ (sched : List IChoice) (bv sv : Bool),
    ((interruptInit bv sv).watcherPC = 0 ∧ (interruptInit bv sv).resumeSent = false ∧
      (interruptInit bv sv).trace = []) ∧
    enqueuedBeforeResume (irun sched (interruptInit bv sv)).trace = true ∧
    ((irun sched (interruptInit bv sv)).watcherPC = 3 →
      (irun sched (interruptInit bv sv)).uiQueue = [] →
      (irun sched (interruptInit bv sv)).resumeSent = true ∧
      (irun sched (interruptInit bv sv)).bottomVisible = false ∧
      (irun sched (interruptInit bv sv)).sideVisible = false) := by
  intro sched bv sv
  obtain ⟨h1, h2, h3, h4⟩ := irun_preserves_inv sched (interruptInit bv sv) (interruptInit_inv bv sv)
  refine ⟨⟨rfl, rfl, rfl⟩, h1, ?_⟩
  intro hpc hq
  refine ⟨h4 (by omega), ?_, ?_⟩ <;>
    rcases h3 (by omega) with hne | ⟨hb, hs⟩
  · exact absurd hq hne
  · exact hb
  · exact absurd hq hne
  · exact hs

/-- C3 witness: the contract applied to the late-UI schedule. -/
theorem interruption_watcher_contract_witness :
    enqueuedBeforeResume (irun lateUiSched (interruptInit true true)).trace = true ∧
    (irun lateUiSched (interruptInit true true)).resumeSent = true ∧
    (irun lateUiSched (interruptInit true true)).bottomVisible = false ∧
    (irun lateUiSched (interruptInit true true)).sideVisible = false := by
  have h := interruption_watcher_contract lateUiSched true true
  exact ⟨h.2.1, (h.2.2 (by decide) (by decide)).1, (h.2.2 (by decide) (by decide)).2.1,
    (h.2.2 (by decide) (by decide)).2.2⟩

end MpvPlayer
